import Mathlib

/-!
# Formal model of the protocol-guard compliance and security engines

This file embeds, in Lean, the parts of the protocol-guard code base that the
verified properties talk about:

* the shared compliance data model (results, severities, pass/fail/warning
  counts) used by the MCP, A2A and UCP rule sets;
* the A2A compliance route's rule evaluation and report counting
  (`apps/web/src/app/api/a2a/...`, mirrored in the unnamed route source);
* the MCP compliance route's rule evaluation (`api/mcp/test/route.ts`);
* the UCP rule set's service-version, signing-keys and vendor-namespace rules
  (`packages/ucp-sdk` compliance module and `api/ucp/test/route.ts`);
* the per-rule fault-isolating rule-set runner shared by the SDK compliance
  modules;
* the agent-card document fetchers (compliance route and security scanner
  variants), modelled over an abstract transport;
* the pattern detectors of the two security scanners, over an executable
  model of the JavaScript regular expressions they use.

Conventions: JavaScript `undefined` is modelled as `Option.none`; string
truthiness (`!!s`) is `truthyStr`; keyed JSON objects are association lists in
insertion order (JavaScript object key order); thrown exceptions are modelled
with `Except String`.  Fields of the source records that no modelled code path
reads (for example the structured `details` payload of UCP results, or tool
input schemas) are omitted.
-/

/-! ## Severities and compliance results -/

/-- Compliance severity, as used by the rule sets (`'critical' | 'warning' | 'info'`). -/
inductive Severity where
  | critical
  | warning
  | info
deriving DecidableEq, Repr

/-- Security-finding severity (`'critical' | 'high' | 'medium' | 'low' | 'info'`). -/
inductive FindingSeverity where
  | critical
  | high
  | medium
  | low
  | info
deriving DecidableEq, Repr

/-- A compliance result, the common record shape produced by every rule.
The optional structured `details` payload of the sources is omitted. -/
structure ComplianceResult where
  passed : Bool
  ruleId : String
  message : String
  severity : Severity
  docUrl : Option String := none
deriving DecidableEq, Repr

/-- Source: `results.filter(r => r.passed).length` — shared by all report builders. -/
def passedCountOf (rs : List ComplianceResult) : Nat :=
  (rs.filter fun r => r.passed).length

/-- Source: `results.filter(r => !r.passed && r.severity === 'critical').length` —
the failed count used by every report builder in the code base. -/
def failedCountOf (rs : List ComplianceResult) : Nat :=
  (rs.filter fun r => !r.passed && decide (r.severity = Severity.critical)).length

/-- Source: `results.filter(r => !r.passed && r.severity === 'warning').length` —
the warning count used by the SDK compliance runners and by the MCP and UCP
routes. -/
def warningCountOf (rs : List ComplianceResult) : Nat :=
  (rs.filter fun r => !r.passed && decide (r.severity = Severity.warning)).length

/-- The A2A compliance route's deviating warning count:
`results.filter(r => !r.passed && (r.severity === 'warning' || r.severity === 'info')).length`. -/
def a2aRouteWarningCountOf (rs : List ComplianceResult) : Nat :=
  (rs.filter fun r =>
    !r.passed && (decide (r.severity = Severity.warning) || decide (r.severity = Severity.info))).length

/-- Modelled from the spec's words: `failedCount` = count of
`{passed:false, severity:Critical}` results.  Kept separate from
`failedCountOf` so the code's formula can be compared against it. -/
def specFailedCount (rs : List ComplianceResult) : Nat :=
  rs.countP fun r => !r.passed && decide (r.severity = Severity.critical)

/-- Modelled from the spec's words: `warningCount` = count of
`{passed:false, severity:Warning}` results. -/
def specWarningCount (rs : List ComplianceResult) : Nat :=
  rs.countP fun r => !r.passed && decide (r.severity = Severity.warning)

/-- Count of informational failures (`passed=false`, severity Info); the spec
says these contribute to neither `failedCount` nor `warningCount`. -/
def specInfoFailureCount (rs : List ComplianceResult) : Nat :=
  rs.countP fun r => !r.passed && decide (r.severity = Severity.info)

/-! ## JavaScript value helpers -/

/-- Truthiness of an optional string: `undefined` and `""` are falsy. -/
def truthyStr : Option String → Bool
  | none => false
  | some s => !s.isEmpty

/-- JavaScript falsiness test `!v` for an optional string. -/
def jsFalsy (v : Option String) : Bool := !truthyStr v

/-- Template-literal rendering `${v}`: `undefined` renders as `"undefined"`. -/
def jsShow : Option String → String
  | some s => s
  | none => "undefined"

/-- Source: `Array.prototype.join` rendering of one element: `undefined` renders as `""`. -/
def jsJoinShow : Option String → String
  | some s => s
  | none => ""

/-- JavaScript `a || b` on optional strings: the first operand when truthy,
otherwise the second. -/
def jsOrStr (a b : Option String) : Option String :=
  if truthyStr a then a else b

/-! ## A small executable model of the JavaScript regular expressions used by
the pattern catalogs

Each pattern is compiled to a token list.  `RTok.one cls` matches one character
of the class, `RTok.opt cls` an optional character (greedy with backtracking,
as in `[_-]?`), `RTok.rep cls mn mx` a greedy bounded repetition
(`*`, `+`, `{20,}`, `{4}` …), and `RTok.eos` the `$` anchor.  Case-insensitive
(`/i`) patterns are matched against the lowercased text while the reported
match `match[0]` is sliced out of the original text, as in JavaScript. -/

inductive RTok where
  | one (cls : Char → Bool)
  | opt (cls : Char → Bool)
  | rep (cls : Char → Bool) (mn : Nat) (mx : Option Nat)
  | eos

/-- Length of the maximal prefix run of characters in the class. -/
def classRun (cls : Char → Bool) : List Char → Nat
  | [] => 0
  | c :: cs => if cls c then classRun cls cs + 1 else 0

/-- Anchored token matching with explicit fuel (structural recursion on the
fuel, so that proofs can evaluate matches).  Every recursive call shortens the
token list, so `fuel = toks.length + 1` always suffices; the out-of-fuel
branch is unreachable under the wrapper `matchToks` below. -/
def matchToksF : Nat → List RTok → List Char → Option Nat
  | 0, _, _ => none
  | _ + 1, [], _ => some 0
  | fuel + 1, .one cls :: ts, c :: cs =>
    if cls c then (matchToksF fuel ts cs).map (· + 1) else none
  | _ + 1, .one _ :: _, [] => none
  | fuel + 1, .opt _ :: ts, [] => matchToksF fuel ts []
  | fuel + 1, .opt cls :: ts, c :: cs =>
    if cls c then
      match matchToksF fuel ts cs with
      | some n => some (n + 1)
      | none => matchToksF fuel ts (c :: cs)
    else matchToksF fuel ts (c :: cs)
  | fuel + 1, .rep cls mn mx :: ts, l =>
    let run := classRun cls l
    let hi := match mx with
      | some m => min run m
      | none => run
    (List.range (hi + 1)).reverse.findSome? fun k =>
      if mn ≤ k then (matchToksF fuel ts (l.drop k)).map (k + ·) else none
  | fuel + 1, .eos :: ts, [] => matchToksF fuel ts []
  | _ + 1, .eos :: _, _ :: _ => none

/-- Greedy, backtracking match of the token list at the start of the input:
the number of characters matched, or `none`. -/
def matchToks (ts : List RTok) (l : List Char) : Option Nat :=
  matchToksF (ts.length + 1) ts l

/-- Leftmost match: the first start position (and length) at which the tokens
match, scanning left to right as a JavaScript regex search does. -/
def searchPos (toks : List RTok) : List Char → Option (Nat × Nat)
  | [] => (matchToks toks []).map fun n => (0, n)
  | c :: cs =>
    match matchToks toks (c :: cs) with
    | some n => some (0, n)
    | none => (searchPos toks cs).map fun p => (p.1 + 1, p.2)

/-- A compiled JavaScript regex: token list plus the `/i` flag. -/
structure JsRegex where
  toks : List RTok
  ci : Bool

/-- Source: `s.match(re)?.[0]` — the matched substring of the original text, or
`none`.  For `/i` patterns the search runs over the lowercased text. -/
def jsMatch (re : JsRegex) (s : String) : Option String :=
  let orig := s.toList
  let hay := if re.ci then orig.map Char.toLower else orig
  match searchPos re.toks hay with
  | some (i, n) => some (String.mk ((orig.drop i).take n))
  | none => none

/-- Source: `re.test(s)` for a pattern anchored with `^ … $` (the tokens start at
position 0 and end with `RTok.eos`). -/
def jsTestAnchored (toks : List RTok) (s : String) : Bool :=
  (matchToks toks s.toList).isSome

/-- One `RTok.one` token per character of a literal pattern.  For `/i`
patterns the literal is given lowercased, matching the lowercased text. -/
def litToks (s : String) : List RTok :=
  s.toList.map fun c => RTok.one (· = c)

/-- A case-insensitive literal pattern such as `/do not mention/i`. -/
def ciLit (s : String) : JsRegex := ⟨litToks s, true⟩

/-- Character classes used by the catalogs. -/
def isAsciiDigit (c : Char) : Bool := '0' ≤ c && c ≤ '9'

def isAsciiAlphaNum (c : Char) : Bool :=
  ('a' ≤ c && c ≤ 'z') || ('A' ≤ c && c ≤ 'Z') || isAsciiDigit c

/-- JavaScript `\s` (the common members; exotic Unicode spaces omitted). -/
def jsWs (c : Char) : Bool :=
  c = ' ' || c = '\t' || c = '\n' || c = '\r' || c = '\x0b' || c = '\x0c' ||
    Char.toNat c = 160 || Char.toNat c = 65279

/-- JavaScript `.` — any character except line terminators. -/
def jsDot (c : Char) : Bool :=
  !(c = '\n' || c = '\r' || Char.toNat c = 8232 || Char.toNat c = 8233)

def isUnderscoreDash (c : Char) : Bool := c = '_' || c = '-'

def isColonEq (c : Char) : Bool := c = ':' || c = '='

def isQuoteChar (c : Char) : Bool := c = '"' || Char.toNat c = 39

def isNotQuoteChar (c : Char) : Bool := !isQuoteChar c

/-- Source: `[a-zA-Z0-9_.+-]` — the bearer-token character class. -/
def isBearerChar (c : Char) : Bool :=
  isAsciiAlphaNum c || c = '_' || c = '.' || c = '+' || c = '-'

/-- Source: `[bporas]` — the Slack token kind class. -/
def isSlackKindChar (c : Char) : Bool :=
  c = 'b' || c = 'p' || c = 'o' || c = 'r' || c = 'a' || c = 's'

/-- Source: `[a-zA-Z0-9-]` — the Slack token body class. -/
def isSlackBodyChar (c : Char) : Bool := isAsciiAlphaNum c || c = '-'

/-! ## String helpers (list-based, so that proofs can evaluate them) -/

/-- First index at which `pat` occurs as a contiguous sublist. -/
def listFindSub (pat : List Char) : List Char → Option Nat
  | [] => if pat.isEmpty then some 0 else none
  | c :: cs =>
    if pat.isPrefixOf (c :: cs) then some 0
    else (listFindSub pat cs).map (· + 1)

/-- JavaScript `s.includes(pat)` — case-sensitive substring test. -/
def containsSubstr (s pat : String) : Bool :=
  (listFindSub pat.toList s.toList).isSome

def strEndsWith (s suffix : String) : Bool :=
  suffix.toList.isSuffixOf s.toList

def strStartsWith (s pre : String) : Bool :=
  pre.toList.isPrefixOf s.toList

/-- Source: `s.replace(/\/+$/, '')` — strip every trailing slash. -/
def rstripSlashes (s : String) : String :=
  String.mk ((s.toList.reverse.dropWhile (· = '/')).reverse)

/-- Source: `s.replace(/\/$/, '')` — strip at most one trailing slash. -/
def stripOneTrailingSlash (s : String) : String :=
  if strEndsWith s "/" then String.mk s.toList.dropLast else s

/-- The apostrophe character, for building source message strings. -/
def aposStr : String := String.mk [Char.ofNat 39]

/-! ## Pattern catalogs

The catalogs below transcribe the regular-expression arrays of the two
security scanners.  Case-insensitive literals are given lowercased (the `/i`
matching lowers the text). -/

/-- Source: `HIDDEN_INSTRUCTION_PATTERNS` of the MCP security scanner. -/
def mcpHiddenInstructionPatterns : List JsRegex :=
  [ ciLit ("<instructions>"), ciLit ("</instructions>"),
    ciLit ("<system>"), ciLit ("</system>"),
    ciLit ("<important>"), ciLit ("</important>"),
    ciLit ("<secret>"), ciLit ("</secret>"),
    ciLit ("do not mention"), ciLit ("do not tell"), ciLit ("do not inform"),
    ciLit ("never inform the user"), ciLit ("never mention"),
    ciLit ("don" ++ aposStr ++ "t tell the user"), ciLit ("don" ++ aposStr ++ "t mention"),
    ciLit ("hide this from"), ciLit ("keep this hidden"),
    ciLit ("before using this tool"),
    ciLit ("this is very important"),
    ciLit ("the application will crash") ]

/-- The tail `\s*[:=]\s*["'][^"']+["']` shared by the key/value secret
patterns. -/
def kvSecretTail : List RTok :=
  [RTok.rep jsWs 0 none, RTok.one isColonEq, RTok.rep jsWs 0 none,
   RTok.one isQuoteChar, RTok.rep isNotQuoteChar 1 none, RTok.one isQuoteChar]

/-- Source: `/api[_-]?key\s*[:=]\s*["'][^"']+["']/i` -/
def apiKeyPattern : JsRegex :=
  ⟨litToks ("api") ++ [RTok.opt isUnderscoreDash] ++ litToks ("key") ++ kvSecretTail, true⟩

/-- Source: `/password\s*[:=]\s*["'][^"']+["']/i` -/
def passwordPattern : JsRegex := ⟨litToks ("password") ++ kvSecretTail, true⟩

/-- Source: `/secret\s*[:=]\s*["'][^"']+["']/i` -/
def secretKvPattern : JsRegex := ⟨litToks ("secret") ++ kvSecretTail, true⟩

/-- Source: `/token\s*[:=]\s*["'][^"']+["']/i` -/
def tokenKvPattern : JsRegex := ⟨litToks ("token") ++ kvSecretTail, true⟩

/-- Source: `/bearer\s+[a-zA-Z0-9_.+-]+/i` (MCP scanner variant, no length bound). -/
def bearerPatternMcp : JsRegex :=
  ⟨litToks ("bearer") ++ [RTok.rep jsWs 1 none, RTok.rep isBearerChar 1 none], true⟩

/-- Source: `/bearer\s+[a-zA-Z0-9_.+-]{20,}/i` (A2A scanner variant). -/
def bearerPatternA2a : JsRegex :=
  ⟨litToks ("bearer") ++ [RTok.rep jsWs 1 none, RTok.rep isBearerChar 20 none], true⟩

/-- Source: `/sk-[a-zA-Z0-9]{20,}/` (case-sensitive). -/
def skKeyPattern : JsRegex :=
  ⟨litToks ("sk-") ++ [RTok.rep isAsciiAlphaNum 20 none], false⟩

/-- Source: `/ghp_[a-zA-Z0-9]{36}/` (case-sensitive). -/
def ghpKeyPattern : JsRegex :=
  ⟨litToks ("ghp_") ++ [RTok.rep isAsciiAlphaNum 36 (some 36)], false⟩

/-- Source: `/xox[bporas]-[a-zA-Z0-9-]+/` (case-sensitive). -/
def xoxKeyPattern : JsRegex :=
  ⟨litToks ("xox") ++ [RTok.one isSlackKindChar, RTok.one (· = '-'),
    RTok.rep isSlackBodyChar 1 none], false⟩

/-- Source: `SECRET_PATTERNS` of the MCP security scanner, in source order. -/
def mcpSecretPatterns : List JsRegex :=
  [apiKeyPattern, passwordPattern, secretKvPattern, tokenKvPattern,
   bearerPatternMcp, skKeyPattern, ghpKeyPattern, xoxKeyPattern]

/-- Source: `SECRET_PATTERNS` of the A2A security scanner, in source order. -/
def a2aSecretPatterns : List JsRegex :=
  [apiKeyPattern, passwordPattern, secretKvPattern,
   bearerPatternA2a, skKeyPattern, ghpKeyPattern]

/-- An entry of the A2A scanner's `INJECTION_PATTERNS`: a pattern with its
display name. -/
structure NamedPattern where
  re : JsRegex
  name : String

/-- Source: `INJECTION_PATTERNS` of the A2A security scanner, in source order. -/
def a2aInjectionPatterns : List NamedPattern :=
  [ ⟨ciLit ("<instructions>"), "XML injection tag"⟩,
    ⟨ciLit ("<system>"), "System prompt injection"⟩,
    ⟨ciLit ("ignore previous"), "Prompt override attempt"⟩,
    ⟨ciLit ("you are now"), "Role hijacking"⟩,
    ⟨ciLit ("do not mention"), "Suppression directive"⟩,
    ⟨ciLit ("never tell the user"), "Information hiding"⟩,
    ⟨⟨litToks ("override") ++ [RTok.rep jsDot 0 none] ++ litToks ("instruction"), true⟩,
      "Override directive"⟩,
    ⟨⟨litToks ("forget") ++ [RTok.rep jsDot 0 none] ++ litToks ("previous"), true⟩,
      "Context reset attempt"⟩,
    ⟨ciLit ("act as"), "Role impersonation (may be benign)"⟩ ]

/-- First matching pattern of a catalog, in catalog order — the model of the
`for … { if (match) { …; break } }` loops of the MCP scanner. -/
def firstCatalogMatch (cat : List JsRegex) (s : String) : Option String :=
  cat.findSome? fun re => jsMatch re s

/-! ## Security findings and the scanners' analyzers -/

/-- A finding of the MCP security scanner (OWASP-tagged). -/
structure MCPFinding where
  owaspId : String
  owaspTitle : String
  owaspUrl : String
  severity : FindingSeverity
  category : String
  title : String
  description : String
  toolName : Option String := none
  evidence : Option String := none
deriving DecidableEq, Repr

/-- A finding of the A2A security scanner. -/
structure A2AFinding where
  category : String
  severity : FindingSeverity
  title : String
  description : String
  evidence : Option String := none
  recommendation : Option String := none
deriving DecidableEq, Repr

/-- An MCP tool as the scanner's per-tool analyzers consume it (the input
schema, unused by the embedded analyzers, is omitted). -/
structure MCPTool where
  name : String
  description : Option String := none
deriving DecidableEq, Repr

def owaspMcp01Title : String := "Token Mismanagement & Secret Exposure"

def owaspMcp01Url : String :=
  "https://owasp.org/www-project-mcp-top-10/2025/MCP01-2025-Token-Mismanagement-and-Secret-Exposure"

def owaspMcp03Title : String := "Tool Poisoning"

def owaspMcp03Url : String :=
  "https://owasp.org/www-project-mcp-top-10/2025/MCP03-2025%E2%80%93Tool-Poisoning"

/-- Source: `analyzeToolForHiddenInstructions` of the MCP scanner: scan the tool
description against the hidden-instruction catalog; the loop breaks after the
first matching pattern, so at most one finding is produced. -/
def analyzeToolForHiddenInstructions (tool : MCPTool) : List MCPFinding :=
  match firstCatalogMatch mcpHiddenInstructionPatterns (tool.description.getD "") with
  | some m =>
    [ { owaspId := "MCP03", owaspTitle := owaspMcp03Title, owaspUrl := owaspMcp03Url,
        severity := FindingSeverity.critical, category := "Tool Poisoning",
        title := "Hidden instructions detected in tool description",
        description := "The tool \"" ++ tool.name ++
          "\" contains hidden instruction patterns that could manipulate AI behavior.",
        toolName := some tool.name, evidence := some m } ]
  | none => []

/-- Source: `match[0].substring(0, 10) + '...[REDACTED]'` — the evidence redaction
applied to every secret-pattern match. -/
def redactEvidence (m : String) : String :=
  String.take m 10 ++ "...[REDACTED]"

/-- Source: `analyzeToolForSecretLeakage` of the MCP scanner: first matching secret
pattern wins (the loop breaks), and the evidence is redacted. -/
def analyzeToolForSecretLeakage (tool : MCPTool) : List MCPFinding :=
  match firstCatalogMatch mcpSecretPatterns (tool.description.getD "") with
  | some m =>
    [ { owaspId := "MCP01", owaspTitle := owaspMcp01Title, owaspUrl := owaspMcp01Url,
        severity := FindingSeverity.critical, category := "Secret Exposure",
        title := "Potential secret/credential found in tool description",
        description := "The tool \"" ++ tool.name ++
          "\" description may contain embedded credentials or tokens.",
        toolName := some tool.name, evidence := some (redactEvidence m) } ]
  | none => []

/-- A skill as the A2A scanner's injection analyzer consumes it. -/
structure ScanSkill where
  id : Option String := none
  name : Option String := none
  description : Option String := none
  examples : Option (List String) := none
deriving DecidableEq, Repr

/-- The agent-card fields read by the A2A scanner's injection analyzer. -/
structure ScanCard where
  name : Option String := none
  description : Option String := none
  skills : Option (List ScanSkill) := none
deriving DecidableEq, Repr

/-- The ordered `(field name, value)` list `analyzeInjectionRisks` builds:
card name and description, then per skill its name, description and examples. -/
def injectionTextFields (card : ScanCard) : List (String × Option String) :=
  [("name", card.name), ("description", card.description)] ++
    (match card.skills with
     | none => []
     | some skills =>
       skills.flatMap fun skill =>
         let label := jsShow (jsOrStr skill.id skill.name)
         [("skill[" ++ label ++ "].name", skill.name),
          ("skill[" ++ label ++ "].description", skill.description)] ++
           (match skill.examples with
            | none => []
            | some exs =>
              (List.range exs.length).map fun i =>
                ("skill[" ++ label ++ "].examples[" ++ toString i ++ "]", exs.get? i)))

/-- Source: `analyzeInjectionRisks` of the A2A scanner.  Unlike the MCP scanner's
per-tool loops, the inner pattern loop does not break: one finding is pushed
for every matching pattern of the catalog, per scanned field. -/
def analyzeInjectionRisks (card : ScanCard) : List A2AFinding :=
  (injectionTextFields card).flatMap fun field =>
    if !truthyStr field.2 then []
    else
      a2aInjectionPatterns.filterMap fun p =>
        match jsMatch p.re (field.2.getD "") with
        | some m =>
          some { category := "Prompt Injection",
                 severity := if containsSubstr p.name ("benign")
                   then FindingSeverity.low else FindingSeverity.high,
                 title := p.name ++ " in " ++ field.1,
                 description := "The field \"" ++ field.1 ++
                   "\" contains a pattern that could be used for prompt injection: \"" ++
                   p.name ++ "\".",
                 evidence := some m,
                 recommendation := some ("Review and sanitize agent card text fields.") }
        | none => none

/-- Source: `analyzeSecretLeakage` of the A2A scanner, as a function of the serialized
card `JSON.stringify(card)` (the serialization itself is taken as input).
The loop breaks after the first matching pattern; the evidence is redacted. -/
def analyzeSecretLeakage (cardJson : String) : List A2AFinding :=
  match firstCatalogMatch a2aSecretPatterns cardJson with
  | some m =>
    [ { category := "Secret Leakage", severity := FindingSeverity.critical,
        title := "Potential secret/credential found in agent card",
        description :=
          "The agent card contains what appears to be an embedded credential or API key.",
        evidence := some (redactEvidence m),
        recommendation :=
          some ("Remove all secrets from the agent card. Use proper secrets management.") } ]
  | none => []

/-! ## URL model and document fetchers -/

/-- The parts of a parsed URL the fetchers read.  This models `new URL(s)`
for ordinary `scheme://host/path` inputs: `origin` is `scheme://host`, the
`pathname` defaults to `/`, and query/fragment parts are excluded from the
pathname.  Userinfo and host normalization are not modelled. -/
structure ParsedURL where
  scheme : String
  host : String
  pathname : String
deriving DecidableEq, Repr

def ParsedURL.origin (u : ParsedURL) : String := u.scheme ++ "://" ++ u.host

/-- Source: `new URL(s)`, or `none` when the constructor would throw. -/
def parseURL (s : String) : Option ParsedURL :=
  match listFindSub ("://".toList) s.toList with
  | none => none
  | some i =>
    let chars := s.toList
    let scheme := chars.take i
    let rest := chars.drop (i + 3)
    let host := rest.takeWhile fun c => !(c = '/' || c = '?' || c = '#')
    if scheme.isEmpty || host.isEmpty then none
    else
      let tail := rest.drop host.length
      let path := tail.takeWhile fun c => !(c = '?' || c = '#')
      some { scheme := String.mk scheme, host := String.mk host,
             pathname := if path.isEmpty then "/" else String.mk path }

/-- Source: `isValidURL` of the compliance sources: `new URL(url)` must succeed and
the protocol must be `http:` or `https:`; `undefined` makes the constructor
throw, which is caught and reported as invalid. -/
def isValidURL : Option String → Bool
  | none => false
  | some s =>
    match parseURL s with
    | some u => u.scheme = "http" || u.scheme = "https"
    | none => false

/-- A skill entry as the A2A compliance route reads it (`s.name || s.id`). -/
structure A2ARouteSkill where
  name : Option String := none
  id : Option String := none
deriving DecidableEq, Repr

/-- The identity-confirming fields both fetchers inspect on a parsed body. -/
structure CardFields where
  name : Option String := none
  description : Option String := none
  url : Option String := none
  skills : Option (List A2ARouteSkill) := none
deriving DecidableEq, Repr

/-- A parsed JSON body: either a falsy value (`null`, `0`, `""`, `false`) or
an object carrying the inspected fields. -/
inductive CardJson where
  | null
  | obj (fields : CardFields)
deriving DecidableEq, Repr

/-- Source: `json && (json.name || json.description || json.url || json.skills)` —
the compliance route's agent-card check.  A declared `skills` array is truthy
even when empty. -/
def routeCardConfirming : CardJson → Bool
  | CardJson.null => false
  | CardJson.obj f =>
    truthyStr f.name || truthyStr f.description || truthyStr f.url || f.skills.isSome

/-- Source: `data && typeof data === 'object' && (data.name || data.skills || data.url)`
— the security scanner's agent-card check (note: no `description`). -/
def scannerCardConfirming : CardJson → Bool
  | CardJson.null => false
  | CardJson.obj f => truthyStr f.name || f.skills.isSome || truthyStr f.url

/-- One HTTP response as the fetchers classify it: `ok`, status, whether the
content type includes `text/html`, and the JSON parse of the body (`none`
when parsing throws). -/
structure HttpResponse where
  ok : Bool
  status : Nat
  contentTypeHtml : Bool
  body : Option CardJson
deriving DecidableEq, Repr

/-- A transport reply: a response, or a thrown network error message. -/
inductive TransportReply where
  | resp (r : HttpResponse)
  | thrown (msg : String)
deriving DecidableEq, Repr

/-- An abstract transport: what `fetch` returns for each requested URL. -/
abbrev Transport := String → TransportReply

/-- The compliance route's candidate list: the exact URL; then, only when the
URL does not end in `.json`, the stripped origin+path and the origin with the
well-known suffix.  No deduplication is performed.  `none` when `new URL`
throws. -/
def a2aRouteCandidates (baseUrl : String) : Option (List String) :=
  (parseURL baseUrl).map fun u =>
    if strEndsWith baseUrl ".json" then [baseUrl]
    else
      let base := u.origin ++ rstripSlashes u.pathname
      [baseUrl, base ++ "/.well-known/agent.json", u.origin ++ "/.well-known/agent.json"]

/-- Result of the compliance route's fetch: the card (`none` for the final
`card: null` failure), the resolved URL, and the error summary on failure. -/
structure A2AFetchResult where
  card : Option CardJson
  resolvedUrl : String
  error : Option String := none
deriving DecidableEq, Repr

/-- The compliance route's fetch loop over the candidate list, also returning
the list of URLs actually requested.  Per-candidate failures are appended to
the attempt log `errs` and surface only in the final failure message. -/
def a2aFetchLoop (t : Transport) (baseUrl : String) :
    List String → List String → A2AFetchResult × List String
  | [], errs =>
    ({ card := none, resolvedUrl := baseUrl,
       error := some ("Could not fetch agent card. Tried: " ++
         String.intercalate "; " errs) }, [])
  | url :: rest, errs =>
    match t url with
    | TransportReply.thrown m =>
      let next := a2aFetchLoop t baseUrl rest (errs ++ [url ++ " → " ++ m])
      (next.1, url :: next.2)
    | TransportReply.resp r =>
      if !r.ok then
        let next := a2aFetchLoop t baseUrl rest
          (errs ++ [url ++ " → HTTP " ++ toString r.status])
        (next.1, url :: next.2)
      else
        match r.body with
        | none =>
          let next := a2aFetchLoop t baseUrl rest
            (errs ++ [url ++ " → Response is not valid JSON"])
          (next.1, url :: next.2)
        | some j =>
          if routeCardConfirming j then
            ({ card := some j, resolvedUrl := url }, [url])
          else if r.contentTypeHtml then
            let next := a2aFetchLoop t baseUrl rest
              (errs ++ [url ++ " → Returned HTML, not JSON"])
            (next.1, url :: next.2)
          else
            ({ card := some j, resolvedUrl := url }, [url])

/-- Source: `fetchAgentCard` of the A2A compliance route. -/
def a2aFetchAgentCard (t : Transport) (baseUrl : String) :
    Option (A2AFetchResult × List String) :=
  (a2aRouteCandidates baseUrl).map fun urls => a2aFetchLoop t baseUrl urls []

/-- First-occurrence deduplication, the model of `[...new Set(xs)]`.
Structural on an explicit fuel bounded by the list length. -/
def dedupFirstF : Nat → List String → List String
  | 0, _ => []
  | _ + 1, [] => []
  | fuel + 1, x :: xs => x :: dedupFirstF fuel (xs.filter fun y => y != x)

def dedupFirst (l : List String) : List String := dedupFirstF l.length l

/-- The security scanner's candidate list: the URL, the URL with one trailing
slash stripped plus the well-known suffix, and the origin-resolved well-known
path — deduplicated with `[...new Set(attempts)]`.  `none` when URL
resolution throws. -/
def scannerCandidates (url : String) : Option (List String) :=
  (parseURL url).map fun u =>
    dedupFirst
      [url, stripOneTrailingSlash url ++ "/.well-known/agent.json",
       u.origin ++ "/.well-known/agent.json"]

/-- The security scanner's fetch loop: a candidate is accepted only when the
response is `ok`, the body parses, and the scanner's confirming check holds;
every other outcome silently moves to the next candidate.  The second
component is the list of URLs actually requested; a `none` first component
models the final `throw`. -/
def scannerFetchLoop (t : Transport) :
    List String → Option (CardJson × String) × List String
  | [] => (none, [])
  | url :: rest =>
    let hit : Option (CardJson × String) :=
      match t url with
      | TransportReply.thrown _ => none
      | TransportReply.resp r =>
        if r.ok then
          match r.body with
          | some j => if scannerCardConfirming j then some (j, url) else none
          | none => none
        else none
    match hit with
    | some res => (some res, [url])
    | none =>
      let next := scannerFetchLoop t rest
      (next.1, url :: next.2)

/-- Source: `fetchAgentCard` of the A2A security scanner. -/
def scannerFetchAgentCard (t : Transport) (url : String) :
    Option (Option (CardJson × String) × List String) :=
  (scannerCandidates url).map fun urls => scannerFetchLoop t urls

/-! ## The fault-isolating rule-set runner (SDK compliance modules) -/

/-- A compliance rule of the SDK modules: identifier, declared severity, and a
check that either returns a result or throws (modelled with `Except`). -/
structure ProtoRule (Doc : Type) where
  id : String
  severity : Severity
  check : Doc → Except String ComplianceResult

/-- The result the runner synthesizes in its `catch` branch for a throwing
rule: `passed=false`, the rule's declared severity, and a message naming the
internal error. -/
def faultResult {Doc : Type} (rule : ProtoRule Doc) (e : String) : ComplianceResult :=
  { passed := false, ruleId := rule.id,
    message := "Rule check error: " ++ e, severity := rule.severity }

/-- One iteration of the runner's `try/catch` loop body. -/
def evalRule {Doc : Type} (doc : Doc) (rule : ProtoRule Doc) : ComplianceResult :=
  match rule.check doc with
  | Except.ok r => r
  | Except.error e => faultResult rule e

/-- The runner's loop: one result per rule, in declaration order, with each
rule's evaluation isolated from the others. -/
def runRules {Doc : Type} (rules : List (ProtoRule Doc)) (doc : Doc) :
    List ComplianceResult :=
  rules.map (evalRule doc)

/-! ## The A2A compliance route (agent-card rule evaluation and report) -/

/-- The agent-card fields the A2A compliance route's rules read.
`capabilitiesDeclared` is the truthiness of `agentCard.capabilities`;
`authSchemes` is `agentCard.authentication?.schemes`. -/
structure A2ARouteCard where
  name : Option String := none
  description : Option String := none
  url : Option String := none
  version : Option String := none
  capabilitiesDeclared : Bool := false
  skills : Option (List A2ARouteSkill) := none
  defaultInputModes : Option (List String) := none
  defaultOutputModes : Option (List String) := none
  authSchemes : Option (List String) := none
deriving DecidableEq, Repr

/-- The A2A spec URL used for every `docUrl` of the route's rules. -/
def a2aSpecDocUrl : String := "https://a2a-protocol.org/latest/"

def a2aRouteNameResult (card : A2ARouteCard) : ComplianceResult :=
  let passed := truthyStr card.name
  { passed, ruleId := "agent-card-name",
    message := if passed then "Agent name present: \"" ++ jsShow card.name ++ "\""
      else "MISSING: Agent card must have \"name\" field.",
    severity := Severity.critical,
    docUrl := if passed then none else some a2aSpecDocUrl }

def a2aRouteDescriptionResult (card : A2ARouteCard) : ComplianceResult :=
  let passed := truthyStr card.description
  { passed, ruleId := "agent-card-description",
    message := if passed then "Agent description present"
      else "MISSING: Agent card must have \"description\" field.",
    severity := Severity.critical,
    docUrl := if passed then none else some a2aSpecDocUrl }

def a2aRouteUrlResult (card : A2ARouteCard) : ComplianceResult :=
  let passed := isValidURL card.url
  { passed, ruleId := "agent-card-url",
    message := if passed then "Agent URL valid: " ++ jsShow card.url
      else "MISSING: Agent card must have valid \"url\" field.",
    severity := Severity.critical,
    docUrl := if passed then none else some a2aSpecDocUrl }

def a2aRouteVersionResult (card : A2ARouteCard) : ComplianceResult :=
  let passed := truthyStr card.version
  { passed, ruleId := "agent-card-version",
    message := if passed then "Version present: " ++ jsShow card.version
      else "MISSING: Agent card must have \"version\" field.",
    severity := Severity.critical,
    docUrl := if passed then none else some a2aSpecDocUrl }

def a2aRouteCapabilitiesResult (card : A2ARouteCard) : ComplianceResult :=
  let passed := card.capabilitiesDeclared
  { passed, ruleId := "agent-card-capabilities",
    message := if passed then "Capabilities declared"
      else "MISSING: Agent card should declare \"capabilities\".",
    severity := Severity.warning,
    docUrl := if passed then none else some a2aSpecDocUrl }

def a2aRouteSkillsResult (card : A2ARouteCard) : ComplianceResult :=
  match card.skills with
  | some skills =>
    if 0 < skills.length then
      { passed := true, ruleId := "agent-card-skills",
        message := toString skills.length ++ " skill(s) declared: " ++
          String.intercalate ", " (skills.map fun s => jsJoinShow (jsOrStr s.name s.id)),
        severity := Severity.warning, docUrl := none }
    else
      { passed := false, ruleId := "agent-card-skills",
        message := "MISSING: Agent card should declare \"skills\" array with at least one skill.",
        severity := Severity.warning, docUrl := some a2aSpecDocUrl }
  | none =>
    { passed := false, ruleId := "agent-card-skills",
      message := "MISSING: Agent card should declare \"skills\" array with at least one skill.",
      severity := Severity.warning, docUrl := some a2aSpecDocUrl }

def a2aRouteInputModesResult (card : A2ARouteCard) : ComplianceResult :=
  match card.defaultInputModes with
  | some modes =>
    if 0 < modes.length then
      { passed := true, ruleId := "agent-card-input-modes",
        message := "Input modes: " ++ String.intercalate ", " modes,
        severity := Severity.info, docUrl := none }
    else
      { passed := false, ruleId := "agent-card-input-modes",
        message := "Not declared: \"defaultInputModes\" helps clients know accepted input formats.",
        severity := Severity.info, docUrl := some a2aSpecDocUrl }
  | none =>
    { passed := false, ruleId := "agent-card-input-modes",
      message := "Not declared: \"defaultInputModes\" helps clients know accepted input formats.",
      severity := Severity.info, docUrl := some a2aSpecDocUrl }

def a2aRouteOutputModesResult (card : A2ARouteCard) : ComplianceResult :=
  match card.defaultOutputModes with
  | some modes =>
    if 0 < modes.length then
      { passed := true, ruleId := "agent-card-output-modes",
        message := "Output modes: " ++ String.intercalate ", " modes,
        severity := Severity.info, docUrl := none }
    else
      { passed := false, ruleId := "agent-card-output-modes",
        message := "Not declared: \"defaultOutputModes\" helps clients know response formats.",
        severity := Severity.info, docUrl := some a2aSpecDocUrl }
  | none =>
    { passed := false, ruleId := "agent-card-output-modes",
      message := "Not declared: \"defaultOutputModes\" helps clients know response formats.",
      severity := Severity.info, docUrl := some a2aSpecDocUrl }

def a2aRouteAuthResult (card : A2ARouteCard) : ComplianceResult :=
  match card.authSchemes with
  | some schemes =>
    if 0 < schemes.length then
      { passed := true, ruleId := "agent-card-authentication",
        message := "Authentication schemes: " ++ String.intercalate ", " schemes,
        severity := Severity.critical, docUrl := none }
    else
      { passed := false, ruleId := "agent-card-authentication",
        message := "MISSING: Agent card must declare \"authentication\" with schemes.",
        severity := Severity.critical, docUrl := some a2aSpecDocUrl }
  | none =>
    { passed := false, ruleId := "agent-card-authentication",
      message := "MISSING: Agent card must declare \"authentication\" with schemes.",
      severity := Severity.critical, docUrl := some a2aSpecDocUrl }

/-- Source: `A2A_COMPLIANCE_RULES.map(...)` of the compliance route: the nine results
in declaration order. -/
def a2aRouteResults (card : A2ARouteCard) : List ComplianceResult :=
  [ a2aRouteNameResult card, a2aRouteDescriptionResult card, a2aRouteUrlResult card,
    a2aRouteVersionResult card, a2aRouteCapabilitiesResult card, a2aRouteSkillsResult card,
    a2aRouteInputModesResult card, a2aRouteOutputModesResult card, a2aRouteAuthResult card ]

/-- The counted part of a compliance report. -/
structure RouteReport where
  results : List ComplianceResult
  passedCount : Nat
  failedCount : Nat
  warningCount : Nat
deriving DecidableEq, Repr

/-- The A2A compliance route's report: note the deviating warning count,
which also counts info-severity failures. -/
def a2aRouteReport (card : A2ARouteCard) : RouteReport :=
  let results := a2aRouteResults card
  { results, passedCount := passedCountOf results,
    failedCount := failedCountOf results,
    warningCount := a2aRouteWarningCountOf results }

/-- The empty agent card `{}` — every field absent. -/
def emptyRouteCard : A2ARouteCard := {}

/-! ## The MCP compliance route (rule evaluation over the handshake state) -/

structure MCPServerInfo where
  name : Option String := none
  version : Option String := none
deriving DecidableEq, Repr

/-- The parsed `capabilities` value: JSON `null` still satisfies
`typeof capabilities === 'object'`; `tools`/`resources` carry the truthiness
of the corresponding members. -/
inductive MCPCapsVal where
  | null
  | obj (tools : Bool) (resources : Bool)
deriving DecidableEq, Repr

structure MCPInitParsed where
  protocolVersion : Option String := none
  serverInfo : Option MCPServerInfo := none
  capabilities : Option MCPCapsVal := none
deriving DecidableEq, Repr

/-- The request-scoped state the MCP route's rule evaluation reads:
the (possibly absent) parsed initialize response, the ping outcome, and the
authentication bookkeeping. -/
structure MCPRouteState where
  serverResponse : Option MCPInitParsed := none
  pingPassed : Bool := false
  pingMessage : String := ""
  authType : Option String := none
  authTested : Bool := false
  authPassed : Bool := false
deriving DecidableEq, Repr

def mcpInitializeDocUrl : String := "https://modelcontextprotocol.io/docs/basic-concepts/"

def mcpAuthenticationDocUrl : String := "https://modelcontextprotocol.io/docs/authentication/"

def mcpCapabilitiesDocUrl : String := "https://modelcontextprotocol.io/docs/capabilities/"

def mcpProtocolVersionResult (st : MCPRouteState) : ComplianceResult :=
  let v := st.serverResponse.bind fun r => r.protocolVersion
  let passed := truthyStr v
  { passed, ruleId := "protocol-version",
    message := if passed then "Protocol version present: \"" ++ jsShow v ++ "\""
      else "MISSING: Server must return \"protocolVersion\" in initialize response.",
    severity := Severity.critical,
    docUrl := if passed then none else some mcpInitializeDocUrl }

def mcpServerInfoResult (st : MCPRouteState) : ComplianceResult :=
  let si := st.serverResponse.bind fun r => r.serverInfo
  let nm := si.bind fun x => x.name
  let ver := si.bind fun x => x.version
  let passed := truthyStr nm && truthyStr ver
  { passed, ruleId := "server-info",
    message := if passed then
        "Server info present: \"" ++ jsShow nm ++ "\" v" ++ jsShow ver
      else "MISSING: Server must return \"serverInfo\" with \"name\" and \"version\".",
    severity := Severity.critical,
    docUrl := if passed then none else some mcpInitializeDocUrl }

def mcpCapabilitiesObjectResult (st : MCPRouteState) : ComplianceResult :=
  let passed := (st.serverResponse.bind fun r => r.capabilities).isSome
  { passed, ruleId := "capabilities-object",
    message := if passed then "Capabilities object present"
      else "MISSING: Server must return a \"capabilities\" object.",
    severity := Severity.warning,
    docUrl := if passed then none else some mcpCapabilitiesDocUrl }

/-- Truthiness of `serverResponse?.capabilities?.tools`. -/
def mcpCapsTools (st : MCPRouteState) : Bool :=
  match st.serverResponse.bind fun r => r.capabilities with
  | some (MCPCapsVal.obj tools _) => tools
  | _ => false

/-- Truthiness of `serverResponse?.capabilities?.resources`. -/
def mcpCapsResources (st : MCPRouteState) : Bool :=
  match st.serverResponse.bind fun r => r.capabilities with
  | some (MCPCapsVal.obj _ resources) => resources
  | _ => false

def mcpToolsCapabilityResult (st : MCPRouteState) : ComplianceResult :=
  { passed := true, ruleId := "tools-capability",
    message := if mcpCapsTools st then "Tools capability declared"
      else "Tools not declared (optional)",
    severity := Severity.info,
    docUrl := if mcpCapsTools st then none else some mcpCapabilitiesDocUrl }

def mcpResourcesCapabilityResult (st : MCPRouteState) : ComplianceResult :=
  { passed := true, ruleId := "resources-capability",
    message := if mcpCapsResources st then "Resources capability declared"
      else "Resources not declared (optional)",
    severity := Severity.info,
    docUrl := if mcpCapsResources st then none else some mcpCapabilitiesDocUrl }

def mcpInitializeMethodResult (st : MCPRouteState) : ComplianceResult :=
  let passed := (st.serverResponse.bind fun r => r.serverInfo).isSome
  { passed, ruleId := "initialize-method",
    message := if passed then "Initialize request handled correctly"
      else "FAILED: Server did not handle the \"initialize\" JSON-RPC request.",
    severity := Severity.critical,
    docUrl := if passed then none else some mcpInitializeDocUrl }

def mcpPingMethodResult (st : MCPRouteState) : ComplianceResult :=
  { passed := st.pingPassed, ruleId := "ping-method",
    message := if st.pingMessage.isEmpty then "Ping not tested (initialize failed)"
      else st.pingMessage,
    severity := Severity.info,
    docUrl := if st.pingPassed then none else some mcpInitializeDocUrl }

/-- The `authentication` rule of the MCP route.  When `authType` is absent
(falsy) or `'none'`, the rule passes unconditionally — independent of every
other component of the state. -/
def mcpAuthResult (st : MCPRouteState) : ComplianceResult :=
  if jsFalsy st.authType || decide (st.authType = some "none") then
    { passed := true, ruleId := "authentication",
      message := "No authentication configured",
      severity := Severity.critical, docUrl := some mcpAuthenticationDocUrl }
  else if st.authTested then
    if st.authPassed then
      { passed := true, ruleId := "authentication",
        message := "Authentication (" ++ jsShow st.authType ++ ") accepted",
        severity := Severity.critical, docUrl := none }
    else
      { passed := false, ruleId := "authentication",
        message := "AUTH FAILED: Server returned 401/403.",
        severity := Severity.critical, docUrl := some mcpAuthenticationDocUrl }
  else
    { passed := true, ruleId := "authentication",
      message := "Authentication (" ++ jsShow st.authType ++ ") configured but couldn" ++
        aposStr ++ "t verify",
      severity := Severity.critical, docUrl := none }

/-- Source: `MCP_COMPLIANCE_RULES.map(...)` of the MCP route: the eight results in
declaration order. -/
def mcpRouteResults (st : MCPRouteState) : List ComplianceResult :=
  [ mcpProtocolVersionResult st, mcpServerInfoResult st, mcpCapabilitiesObjectResult st,
    mcpToolsCapabilityResult st, mcpResourcesCapabilityResult st,
    mcpInitializeMethodResult st, mcpPingMethodResult st, mcpAuthResult st ]

/-- The default request state: no server response, ping untested, no auth. -/
def mcpDefaultState : MCPRouteState := {}

/-! ## UCP rules (service versions, signing keys, vendor namespace) -/

/-- Source: `/^\d{4}-\d{2}-\d{2}$/` — the `DATE_REGEX` of the UCP sources: a pure
4-2-2 digit-grouping check, with no month or day range validation. -/
def dateRegexToks : List RTok :=
  [RTok.rep isAsciiDigit 4 (some 4), RTok.one (· = '-'),
   RTok.rep isAsciiDigit 2 (some 2), RTok.one (· = '-'),
   RTok.rep isAsciiDigit 2 (some 2), RTok.eos]

def dateRegexTest (s : String) : Bool := jsTestAnchored dateRegexToks s

structure UCPService where
  version : Option String := none
  spec : Option String := none
deriving DecidableEq, Repr

structure UCPCapability where
  version : Option String := none
  spec : Option String := none
  schema : Option String := none
deriving DecidableEq, Repr

structure UCPSigningKey where
  kty : Option String := none
deriving DecidableEq, Repr

/-- The `ucp` object; keyed collections are association lists in key order. -/
structure UCPObject where
  version : Option String := none
  services : Option (List (String × UCPService)) := none
  capabilities : Option (List (String × UCPCapability)) := none
deriving DecidableEq, Repr

structure UCPProfile where
  ucp : Option UCPObject := none
  signing_keys : Option (List UCPSigningKey) := none
deriving DecidableEq, Repr

def ucpSpecBase : String := "https://ucp.dev/latest/specification/overview"

/-- Whether a service entry fails the per-service version check
`!s?.version || !DATE_REGEX.test(s.version)`. -/
def ucpServiceVersionBad (s : UCPService) : Bool :=
  !truthyStr s.version || !dateRegexTest (s.version.getD "")

/-- The `ucp-service-version` rule of the UCP SDK rule set: every service must
have a version accepted by `DATE_REGEX`; the failure message reports the
number of offending services. -/
def ucpServiceVersionCheck (profile : UCPProfile) : ComplianceResult :=
  let entries := ((profile.ucp.bind fun u => u.services).getD [])
  let invalid := entries.filter fun e => ucpServiceVersionBad e.2
  { passed := invalid.isEmpty && !entries.isEmpty,
    ruleId := "ucp-service-version",
    message := if invalid.isEmpty then "All services have valid YYYY-MM-DD versions"
      else toString invalid.length ++ " service(s) missing valid version",
    severity := Severity.critical,
    docUrl := some (ucpSpecBase ++ "#services") }

/-- The UCP route's variant of the service-version rule (only emitted when
services are present and non-empty): its failure message additionally joins
the offending service keys — the keys, not the offending version values. -/
def ucpRouteServiceVersionResult (services : List (String × UCPService)) : ComplianceResult :=
  let bad := services.filter fun e => ucpServiceVersionBad e.2
  let badKeys := bad.map fun e => e.1
  { passed := badKeys.isEmpty,
    ruleId := "ucp-service-version",
    message := if badKeys.isEmpty then "All services have valid YYYY-MM-DD versions"
      else toString badKeys.length ++ " service(s) missing valid version: " ++
        String.intercalate ", " badKeys,
    severity := Severity.critical,
    docUrl := some (ucpSpecBase ++ "#services") }

/-- The `ucp-signing-keys` rule (severity Info): passes vacuously with no
keys, but fails when a declared key lacks `kty`. -/
def ucpSigningKeysCheck (profile : UCPProfile) : ComplianceResult :=
  match profile.signing_keys with
  | none =>
    { passed := true, ruleId := "ucp-signing-keys",
      message := "No signing keys declared (optional, used for webhook verification)",
      severity := Severity.info, docUrl := none }
  | some keys =>
    if keys.isEmpty then
      { passed := true, ruleId := "ucp-signing-keys",
        message := "No signing keys declared (optional, used for webhook verification)",
        severity := Severity.info, docUrl := none }
    else
      let invalid := keys.filter fun k => !truthyStr k.kty
      { passed := invalid.isEmpty, ruleId := "ucp-signing-keys",
        message := if invalid.isEmpty then
            toString keys.length ++ " signing key(s) in valid JWK format"
          else toString invalid.length ++ " signing key(s) missing kty field",
        severity := Severity.info, docUrl := some (ucpSpecBase ++ "#security") }

/-- The `ucp-vendor-namespace` rule (severity Info): `passed` is the literal
`true` in the source, for every profile. -/
def ucpVendorNamespaceCheck (profile : UCPProfile) : ComplianceResult :=
  let caps := ((profile.ucp.bind fun u => u.capabilities).getD []).map fun e => e.1
  let standard := caps.filter fun k => strStartsWith k "dev.ucp."
  let vendor := caps.filter fun k => !strStartsWith k "dev.ucp."
  { passed := true, ruleId := "ucp-vendor-namespace",
    message := if 0 < vendor.length then
        toString vendor.length ++ " vendor capability(ies), " ++
          toString standard.length ++ " standard (dev.ucp.*)"
      else "All " ++ toString standard.length ++ " capability(ies) use standard dev.ucp.* namespace",
    severity := Severity.info, docUrl := some (ucpSpecBase ++ "#namespace-governance") }

/-! ## The always-passing info rules of the A2A SDK rule set -/

structure A2ACaps where
  streaming : Option Bool := none
  pushNotifications : Option Bool := none
deriving DecidableEq, Repr

structure A2AProvider where
  organization : Option String := none
deriving DecidableEq, Repr

/-- The agent-card fields read by the A2A SDK's info-severity rules. -/
structure A2ASdkCard where
  capabilities : Option A2ACaps := none
  provider : Option A2AProvider := none
  supportedModels : Option (List String) := none
deriving DecidableEq, Repr

/-- Source: `agent-card-streaming` (Info): `passed` is the literal `true`. -/
def a2aStreamingCheck (card : A2ASdkCard) : ComplianceResult :=
  let msg := match card.capabilities with
    | some caps =>
      match caps.streaming with
      | some b => "Streaming: " ++ (if b then "supported" else "not supported")
      | none => "Streaming not declared"
    | none => "Streaming not declared"
  { passed := true, ruleId := "agent-card-streaming", message := msg,
    severity := Severity.info, docUrl := none }

/-- Source: `agent-card-push-notifications` (Info): `passed` is the literal `true`. -/
def a2aPushNotificationsCheck (card : A2ASdkCard) : ComplianceResult :=
  let msg := match card.capabilities with
    | some caps =>
      match caps.pushNotifications with
      | some b => "Push notifications: " ++ (if b then "supported" else "not supported")
      | none => "Push notifications not declared"
    | none => "Push notifications not declared"
  { passed := true, ruleId := "agent-card-push-notifications", message := msg,
    severity := Severity.info, docUrl := none }

/-- Source: `agent-card-provider` (Info): `passed` is the literal `true`. -/
def a2aProviderCheck (card : A2ASdkCard) : ComplianceResult :=
  { passed := true, ruleId := "agent-card-provider",
    message := match card.provider with
      | some p => "Provider: " ++ jsShow p.organization
      | none => "Provider not specified",
    severity := Severity.info, docUrl := none }

/-- Source: `agent-card-models` (Info): `passed` is the literal `true`. -/
def a2aModelsCheck (card : A2ASdkCard) : ComplianceResult :=
  { passed := true, ruleId := "agent-card-models",
    message := match card.supportedModels with
      | some models =>
        if 0 < models.length then "Supported models: " ++ String.intercalate ", " models
        else "No models specified"
      | none => "No models specified",
    severity := Severity.info, docUrl := none }

/-! ## Concrete scenario inputs -/

/-- The agent card returned by the well-known location in the discovery
scenario: it confirms identity through its `name`. -/
def c6CardJson : CardJson := CardJson.obj { name := some ("Example Agent") }

/-- The discovery scenario's transport: the exact `card.json` URL returns
HTTP 404, the origin's well-known location returns a valid confirming card,
and any other URL returns 404. -/
def c6Transport : Transport := fun url =>
  if url = "https://x.test/card.json" then
    TransportReply.resp { ok := false, status := 404, contentTypeHtml := false, body := none }
  else if url = "https://x.test/.well-known/agent.json" then
    TransportReply.resp
      { ok := true, status := 200, contentTypeHtml := false,
        body := some c6CardJson }
  else
    TransportReply.resp { ok := false, status := 404, contentTypeHtml := false, body := none }

/-- A transport on which every request returns HTTP 404. -/
def notFoundTransport : Transport := fun _ =>
  TransportReply.resp { ok := false, status := 404, contentTypeHtml := false, body := none }

/-- A card whose only identity-confirming field is its `description`. -/
def descOnlyCard : CardJson := CardJson.obj { description := some ("A descriptive agent") }

/-- A transport whose first candidate returns the description-only card and
whose other locations return 404. -/
def c7Transport : Transport := fun url =>
  if url = "https://y.test/agent" then
    TransportReply.resp
      { ok := true, status := 200, contentTypeHtml := false,
        body := some descOnlyCard }
  else
    TransportReply.resp { ok := false, status := 404, contentTypeHtml := false, body := none }

/-- A name-confirming card and transport for exercising the short-circuit. -/
def namedCard : CardJson := CardJson.obj { name := some ("W Agent") }

def c7WitnessTransport : Transport := fun url =>
  if url = "https://w.test/agent" then
    TransportReply.resp
      { ok := true, status := 200, contentTypeHtml := false,
        body := some namedCard }
  else
    TransportReply.resp { ok := false, status := 404, contentTypeHtml := false, body := none }

/-- The commerce-profile scenario: `ucp.services` holds one service whose
version is `"2025-13-40"`. -/
def c3Profile : UCPProfile :=
  { ucp := some
      { version := some ("2026-01-23"),
        services := some
          [("dev.ucp.shopping",
            { version := some ("2025-13-40"),
              spec := some ("https://ucp.dev/services/shopping") })] } }

/-- A genuinely malformed service version, for exhibiting the failure
message's shape. -/
def c3BadServices : List (String × UCPService) :=
  [("dev.ucp.shopping", { version := some ("v1"), spec := none })]

/-- A profile declaring one signing key without `kty`. -/
def c2SigningProfile : UCPProfile :=
  { signing_keys := some [{ kty := none }] }

/-- The injection-scan card whose description matches two catalog patterns. -/
def c4Card : ScanCard := { description := some ("ignore previous. do not mention") }

/-- A tool whose description holds a nine-character bearer credential. -/
def c5Tool : MCPTool := { name := "demo-tool", description := some ("bearer a") }

/-- A tool carrying the spec scenario's long embedded API key. -/
def c5WitnessTool : MCPTool :=
  { name := "keyed-tool",
    description := some ("api_key: \"sk-abcdefghijklmnopqrstuvwxyz\"") }

/-- A demonstration rule pair for the runner: the first returns normally, the
second throws. -/
def c9OkResult : ComplianceResult :=
  { passed := true, ruleId := "demo-ok", message := "ok", severity := Severity.info }

def c9Rules : List (ProtoRule Nat) :=
  [ { id := "demo-ok", severity := Severity.info, check := fun _ => Except.ok c9OkResult },
    { id := "demo-throw", severity := Severity.warning,
      check := fun _ => Except.error "boom" } ]

/-! ## Helper lemmas -/

theorem mem_of_mem_dedupFirstF :
    ∀ (fuel : Nat) (l : List String) (a : String), a ∈ dedupFirstF fuel l → a ∈ l := by
  intro fuel
  induction fuel with
  | zero => intro l a h; simp [dedupFirstF] at h
  | succ n ih =>
    intro l a h
    match l with
    | [] => simp [dedupFirstF] at h
    | x :: xs =>
      rw [dedupFirstF] at h
      rcases List.mem_cons.mp h with h1 | h2
      · exact h1 ▸ List.mem_cons_self x xs
      · exact List.mem_cons_of_mem x (List.mem_of_mem_filter (ih _ a h2))

theorem nodup_dedupFirstF : ∀ (fuel : Nat) (l : List String), (dedupFirstF fuel l).Nodup := by
  intro fuel
  induction fuel with
  | zero => intro l; simp [dedupFirstF]
  | succ n ih =>
    intro l
    match l with
    | [] => simp [dedupFirstF]
    | x :: xs =>
      rw [dedupFirstF]
      refine List.nodup_cons.mpr ⟨fun hmem => ?_, ih _⟩
      have hx := mem_of_mem_dedupFirstF n _ x hmem
      have hp := List.of_mem_filter hx
      simp at hp

theorem nodup_dedupFirst (l : List String) : (dedupFirst l).Nodup :=
  nodup_dedupFirstF _ _

/-! ## The claims -/

/-- C1 (counterexample): the A2A compliance route's report for the empty
agent card has `warningCount = 4`, counting its two info-severity failures,
while the claimed formula (failures of severity Warning only) gives 2 — so
the claim does not hold of every compliance report. -/
theorem C1_route_warning_count_counterexample :
    (a2aRouteReport emptyRouteCard).warningCount = 4 ∧
    specWarningCount (a2aRouteReport emptyRouteCard).results = 2 ∧
    specInfoFailureCount (a2aRouteReport emptyRouteCard).results = 2 ∧
    (a2aRouteReport emptyRouteCard).failedCount = 5 ∧
    specFailedCount (a2aRouteReport emptyRouteCard).results = 5 := by decide

/-- C1 (amended): for every result list, `failedCountOf` and `warningCountOf`
— the formulas used by the SDK runners and by the MCP and UCP routes — agree
with the spec's counts, while the A2A route's warning count equals the spec's
warning count plus the number of info-severity failures. -/
theorem C1_count_invariants (rs : List ComplianceResult) :
    failedCountOf rs = specFailedCount rs ∧
    warningCountOf rs = specWarningCount rs ∧
    a2aRouteWarningCountOf rs = specWarningCount rs + specInfoFailureCount rs := by
  refine ⟨?_, ?_, ?_⟩
  · simp [failedCountOf, specFailedCount, List.countP_eq_length_filter]
  · simp [warningCountOf, specWarningCount, List.countP_eq_length_filter]
  · induction rs with
    | nil => rfl
    | cons r rs ih =>
      simp only [a2aRouteWarningCountOf, specWarningCount, specInfoFailureCount,
        List.filter_cons, List.countP_cons] at ih ⊢
      cases hs : r.severity <;> cases hp : r.passed <;> simp [hs, hp, ih] <;> omega

/-- C2 (counterexample): info-severity rules can produce `passed = false`:
the A2A route's input-modes rule on the empty card, the MCP route's ping rule
in the default state, and the UCP signing-keys rule on a key without `kty`. -/
theorem C2_info_rules_can_fail_counterexample :
    ((a2aRouteResults emptyRouteCard).get ⟨6, by decide⟩).severity = Severity.info ∧
    ((a2aRouteResults emptyRouteCard).get ⟨6, by decide⟩).passed = false ∧
    ((mcpRouteResults mcpDefaultState).get ⟨6, by decide⟩).severity = Severity.info ∧
    ((mcpRouteResults mcpDefaultState).get ⟨6, by decide⟩).passed = false ∧
    (ucpSigningKeysCheck c2SigningProfile).severity = Severity.info ∧
    (ucpSigningKeysCheck c2SigningProfile).passed = false := by decide

/-- C2 (amended): the info rules whose `passed` is the literal `true` in the
source never fail, for every input: the A2A SDK's streaming,
push-notifications, provider and models rules, the MCP route's tools and
resources rules, and the UCP vendor-namespace rule.  (Other info rules — the
A2A route's input/output-modes rules, the MCP ping rule, the UCP signing-keys
rule — can fail, per the counterexample.) -/
theorem C2_always_passing_info_rules (card : A2ASdkCard) (st : MCPRouteState)
    (profile : UCPProfile) :
    (a2aStreamingCheck card).passed = true ∧
    (a2aPushNotificationsCheck card).passed = true ∧
    (a2aProviderCheck card).passed = true ∧
    (a2aModelsCheck card).passed = true ∧
    (mcpToolsCapabilityResult st).passed = true ∧
    (mcpResourcesCapabilityResult st).passed = true ∧
    (ucpVendorNamespaceCheck profile).passed = true :=
  ⟨rfl, rfl, rfl, rfl, rfl, rfl, rfl⟩

/-- C3 (counterexample): `"2025-13-40"` satisfies the 4-2-2 digit-grouping
`DATE_REGEX`, so the service version rule passes — it does not produce a
failing result for that version. -/
theorem C3_version_2025_13_40_passes :
    dateRegexTest "2025-13-40" = true ∧
    (ucpServiceVersionCheck c3Profile).passed = true := by decide

/-- C3 (amended): on the scenario profile the service-version rule passes
with the all-valid message (the regex checks only digit grouping, not month
or day ranges); and when the rule does fail, the route variant's message
enumerates the offending service keys, not the offending version values. -/
theorem C3_service_version_rule_behavior :
    ucpServiceVersionCheck c3Profile =
      { passed := true, ruleId := "ucp-service-version",
        message := "All services have valid YYYY-MM-DD versions",
        severity := Severity.critical,
        docUrl := some "https://ucp.dev/latest/specification/overview#services" } ∧
    ucpRouteServiceVersionResult c3BadServices =
      { passed := false, ruleId := "ucp-service-version",
        message := "1 service(s) missing valid version: dev.ucp.shopping",
        severity := Severity.critical,
        docUrl := some "https://ucp.dev/latest/specification/overview#services" } := by decide

/-- C4 (counterexample): the A2A scanner's injection-risk pass emits one
finding per matching pattern per field — a description matching two catalog
patterns yields two findings for the same field and catalog. -/
theorem C4_injection_scan_two_findings :
    (analyzeInjectionRisks c4Card).map (fun f => f.evidence) =
      [some "ignore previous", some "do not mention"] ∧
    (analyzeInjectionRisks c4Card).map (fun f => f.title) =
      ["Prompt override attempt in description",
       "Suppression directive in description"] := by decide

/-- C4 (amended): first-match-wins holds for the MCP tool scanner's per-tool
catalog scans — at most one finding per tool per catalog — while the A2A
scanner's injection scan is exhaustive per field (see the counterexample). -/
theorem C4_first_match_wins_mcp_scanner (tool : MCPTool) :
    (analyzeToolForHiddenInstructions tool).length ≤ 1 ∧
    (analyzeToolForSecretLeakage tool).length ≤ 1 := by
  constructor
  · rcases h : firstCatalogMatch mcpHiddenInstructionPatterns (tool.description.getD "")
      with _ | m <;> simp [analyzeToolForHiddenInstructions, h]
  · rcases h : firstCatalogMatch mcpSecretPatterns (tool.description.getD "")
      with _ | m <;> simp [analyzeToolForSecretLeakage, h]

/-- C5 (counterexample): a secret-pattern match of at most ten characters is
contained in full in the redacted evidence: the nine-character bearer match
`"bearer a"` yields evidence `"bearer a...[REDACTED]"`, which contains the
whole matched credential. -/
theorem C5_short_secret_fully_disclosed :
    firstCatalogMatch mcpSecretPatterns ("bearer a") = some "bearer a" ∧
    (analyzeToolForSecretLeakage c5Tool).map (fun f => f.evidence) =
      [some "bearer a...[REDACTED]"] ∧
    containsSubstr "bearer a...[REDACTED]" "bearer a" = true := by decide

/-- C5 (amended): every secret-pattern finding's evidence equals the first
ten characters of the match (the whole match when shorter) followed by the
fixed marker, in both scanners; hence secrets agreeing on their first ten
characters yield identical evidence.  The full matched credential is however
not always excluded — any match of at most ten characters appears in full. -/
theorem C5_redaction_shape :
    (∀ (tool : MCPTool) (m : String),
       firstCatalogMatch mcpSecretPatterns (tool.description.getD "") = some m →
       (analyzeToolForSecretLeakage tool).map (fun f => f.evidence) =
         [some (String.take m 10 ++ "...[REDACTED]")]) ∧
    (∀ (cardJson m : String),
       firstCatalogMatch a2aSecretPatterns cardJson = some m →
       (analyzeSecretLeakage cardJson).map (fun f => f.evidence) =
         [some (String.take m 10 ++ "...[REDACTED]")]) ∧
    (∀ m1 m2 : String, String.take m1 10 = String.take m2 10 →
       redactEvidence m1 = redactEvidence m2) := by
  refine ⟨?_, ?_, ?_⟩
  · intro tool m h; simp [analyzeToolForSecretLeakage, h, redactEvidence]
  · intro cardJson m h; simp [analyzeSecretLeakage, h, redactEvidence]
  · intro m1 m2 h; simp [redactEvidence, h]

/-- Witness for C5 (amended), at the spec scenario's embedded API key. -/
theorem C5_redaction_shape_witness :
    (analyzeToolForSecretLeakage c5WitnessTool).map (fun f => f.evidence) =
      [some (String.take "api_key: \"sk-abcdefghijklmnopqrstuvwxyz\"" 10 ++
        "...[REDACTED]")] :=
  C5_redaction_shape.1 c5WitnessTool "api_key: \"sk-abcdefghijklmnopqrstuvwxyz\"" (by decide)

/-- C6 (counterexample): for the identity `https://x.test/card.json` (ending
in `.json`), the compliance route's fetcher never tries a well-known
location: it requests only the exact URL, and the 404 there makes discovery
fail with the attempt log — the resolved location is not the well-known URL. -/
theorem C6_json_identity_discovery_fails :
    a2aFetchAgentCard c6Transport "https://x.test/card.json" =
      some ({ card := none, resolvedUrl := "https://x.test/card.json",
              error := some
                "Could not fetch agent card. Tried: https://x.test/card.json → HTTP 404" },
            ["https://x.test/card.json"]) := by decide

/-- C6 (amended): under the same scenario transport, the security scanner's
fetcher does fall back and succeeds with the well-known URL as resolved
location (the first candidate's 404 is recorded nowhere in the success
result), while the compliance route's fetcher returns a null card. -/
theorem C6_scanner_discovery_scenario :
    scannerFetchAgentCard c6Transport "https://x.test/card.json" =
      some (some (c6CardJson, "https://x.test/.well-known/agent.json"),
            ["https://x.test/card.json",
             "https://x.test/card.json/.well-known/agent.json",
             "https://x.test/.well-known/agent.json"]) ∧
    (a2aFetchAgentCard c6Transport "https://x.test/card.json").map (fun p => p.1.card) =
      some none := by decide

/-- C7 (counterexample): the scanner's confirming check omits `description`.
A first candidate whose successful, parseable body confirms identity only
through `description` is skipped, and the second and third candidate
locations are requested. -/
theorem C7_scanner_ignores_description_confirmation :
    c7Transport "https://y.test/agent" =
      TransportReply.resp
        { ok := true, status := 200, contentTypeHtml := false,
          body := some descOnlyCard } ∧
    routeCardConfirming descOnlyCard = true ∧
    scannerFetchAgentCard c7Transport "https://y.test/agent" =
      some (none, ["https://y.test/agent",
                   "https://y.test/agent/.well-known/agent.json",
                   "https://y.test/.well-known/agent.json"]) := by decide

/-- C7 (amended): the short-circuit holds with each fetcher's own confirming
set.  If the first candidate (the identity itself) returns a successful,
parseable body that the respective check confirms — name, description, url or
skills for the compliance route; name, skills or url for the scanner — the
fetcher resolves to it and requests no other candidate. -/
theorem C7_first_candidate_short_circuit (t : Transport) (baseUrl : String)
    (u : ParsedURL) (hu : parseURL baseUrl = some u)
    (r : HttpResponse) (j : CardJson)
    (ht : t baseUrl = TransportReply.resp r) (hok : r.ok = true)
    (hbody : r.body = some j) :
    (routeCardConfirming j = true →
       a2aFetchAgentCard t baseUrl =
         some ({ card := some j, resolvedUrl := baseUrl, error := none }, [baseUrl])) ∧
    (scannerCardConfirming j = true →
       scannerFetchAgentCard t baseUrl = some (some (j, baseUrl), [baseUrl])) := by
  constructor
  · intro hconf
    rcases hj : strEndsWith baseUrl ".json" <;>
      simp [a2aFetchAgentCard, a2aRouteCandidates, hu, hj, a2aFetchLoop, ht, hok,
        hbody, hconf]
  · intro hconf
    simp [scannerFetchAgentCard, scannerCandidates, hu, dedupFirst, dedupFirstF,
      scannerFetchLoop, ht, hok, hbody, hconf]

/-- Witness for C7 (amended), on a name-confirming first candidate. -/
theorem C7_first_candidate_short_circuit_witness :
    a2aFetchAgentCard c7WitnessTransport "https://w.test/agent" =
      some ({ card := some namedCard, resolvedUrl := "https://w.test/agent",
              error := none },
            ["https://w.test/agent"]) ∧
    scannerFetchAgentCard c7WitnessTransport "https://w.test/agent" =
      some (some (namedCard, "https://w.test/agent"), ["https://w.test/agent"]) := by
  have h := C7_first_candidate_short_circuit c7WitnessTransport "https://w.test/agent"
    { scheme := "https", host := "w.test", pathname := "/agent" } (by decide)
    { ok := true, status := 200, contentTypeHtml := false, body := some namedCard }
    namedCard (by decide) rfl rfl
  exact ⟨h.1 (by decide), h.2 (by decide)⟩

/-- C8 (counterexample): the compliance route's candidate list is not
deduplicated.  For `https://x.test` (empty path) the two well-known
candidates coincide, and when all candidates fail the duplicate location is
requested twice. -/
theorem C8_route_candidates_duplicate :
    a2aRouteCandidates "https://x.test" =
      some ["https://x.test", "https://x.test/.well-known/agent.json",
            "https://x.test/.well-known/agent.json"] ∧
    ¬ (["https://x.test", "https://x.test/.well-known/agent.json",
        "https://x.test/.well-known/agent.json"] : List String).Nodup ∧
    (a2aFetchAgentCard notFoundTransport "https://x.test").map Prod.snd =
      some ["https://x.test", "https://x.test/.well-known/agent.json",
            "https://x.test/.well-known/agent.json"] := by decide

/-- C8 (amended): the security scanner's candidate list — built with
`[...new Set(attempts)]` — contains no duplicate URLs, for every identity. -/
theorem C8_scanner_candidates_nodup (url : String) (cs : List String)
    (h : scannerCandidates url = some cs) : cs.Nodup := by
  rcases hp : parseURL url with _ | u
  · simp [scannerCandidates, hp] at h
  · simp only [scannerCandidates, hp, Option.map_some] at h
    cases h
    exact nodup_dedupFirst _

/-- Witness for C8 (amended): for the empty-path identity the scanner's
deduplication collapses the coinciding well-known candidates. -/
theorem C8_scanner_candidates_nodup_witness :
    (["https://x.test", "https://x.test/.well-known/agent.json"] : List String).Nodup :=
  C8_scanner_candidates_nodup "https://x.test"
    ["https://x.test", "https://x.test/.well-known/agent.json"] (by decide)

/-- C9 (confirmed): the rule-set runner is fault-isolating.  If the rule at
position `i` throws, its result is the synthesized failure with the rule's
declared severity and a message naming the internal error; every rule whose
check returns normally keeps its own result; and the output has exactly one
result per rule, in declaration order. -/
theorem C9_fault_isolation {Doc : Type} (rules : List (ProtoRule Doc)) (doc : Doc)
    (i : Nat) (hi : i < rules.length) (e : String)
    (hthrow : (rules.get ⟨i, hi⟩).check doc = Except.error e) :
    (runRules rules doc).length = rules.length ∧
    (runRules rules doc).get ⟨i, by simpa [runRules] using hi⟩ =
      faultResult (rules.get ⟨i, hi⟩) e ∧
    ∀ (k : Nat) (hk : k < rules.length) (res : ComplianceResult),
      (rules.get ⟨k, hk⟩).check doc = Except.ok res →
      (runRules rules doc).get ⟨k, by simpa [runRules] using hk⟩ = res := by
  have hthrow2 : rules[i].check doc = Except.error e := hthrow
  refine ⟨by simp [runRules], ?_, ?_⟩
  · simp [runRules, List.get_eq_getElem, List.getElem_map, evalRule, hthrow2, faultResult]
  · intro k hk res hok
    have hok2 : rules[k].check doc = Except.ok res := hok
    simp [runRules, List.get_eq_getElem, List.getElem_map, evalRule, hok2]

/-- Witness for C9, on a two-rule set whose second rule throws. -/
theorem C9_fault_isolation_witness :
    (runRules c9Rules 0).length = 2 ∧
    (runRules c9Rules 0).get ⟨1, by decide⟩ =
      faultResult (c9Rules.get ⟨1, by decide⟩) "boom" ∧
    (runRules c9Rules 0).get ⟨0, by decide⟩ = c9OkResult := by
  have h := C9_fault_isolation c9Rules 0 1 (by decide) "boom" rfl
  exact ⟨h.1, h.2.1, h.2.2 0 (by decide) c9OkResult rfl⟩

/-- C10 (confirmed): whenever the supplied `authType` is absent (falsy) or
`'none'`, the MCP route's authentication rule passes with the message
`No authentication configured`, for every possible server-response, ping and
auth-probe state — and it is the eighth result of the rule evaluation. -/
theorem C10_unauthenticated_auth_rule_passes (st : MCPRouteState)
    (h : jsFalsy st.authType = true ∨ st.authType = some "none") :
    (mcpAuthResult st).passed = true ∧
    (mcpAuthResult st).message = "No authentication configured" ∧
    (mcpRouteResults st).get ⟨7, by simp [mcpRouteResults]⟩ = mcpAuthResult st := by
  have hcond : (jsFalsy st.authType || decide (st.authType = some "none")) = true := by
    rcases h with h | h
    · simp [h]
    · simp [h]
  refine ⟨?_, ?_, rfl⟩
  · simp [mcpAuthResult, hcond]
  · simp [mcpAuthResult, hcond]

/-- Witness for C10, in the default (unauthenticated, unreachable-server)
request state. -/
theorem C10_unauthenticated_auth_rule_passes_witness :
    (mcpAuthResult mcpDefaultState).passed = true ∧
    (mcpAuthResult mcpDefaultState).message = "No authentication configured" ∧
    (mcpRouteResults mcpDefaultState).get ⟨7, by decide⟩ = mcpAuthResult mcpDefaultState :=
  C10_unauthenticated_auth_rule_passes mcpDefaultState (Or.inl (by decide))
